import Mathlib

/-!
# Verification development for the Open_Data_QnA JSON-query pipeline

Shallow embedding of the generate / validate / repair / sandboxed-execute /
respond pipeline of this repository:

* `execute_json_query.py` (`run_generated_code`, `restricted_globals`),
* `agents/ValidateJSONQueryAgent.py` (`validate_python_syntax`, `validate_code`),
* `agents/ResponseAgent.py` (`ResponseAgent.run`),
* `opendataqna_json_modifications_outline.py` (`run_json_query_pipeline`).

A candidate program (an LLM-produced Python source string) is modelled by the
observable behaviour that the pipeline code inspects: whether it parses, the
statements its module body runs under the restricted `exec` globals, and the
behaviour of the entry-point callable it may define.  Python exceptions and the
`try`/`except` chain of `run_generated_code` are embedded explicitly, including
the evaluation of each `except` clause's class expression in the module's
global namespace (the module imports `pandas`, not `pd`, which matters for the
clause `except pd.errors.EmptyDataError`).
-/

/-- Values a candidate program's entry point can return (the result dicts carry
them opaquely; `ResponseAgent` renders them).  Lists are modelled to the depth
the pipeline inspects them: a list of strings, as in the repository's own
example programs (lists of email subjects). -/
inductive Value where
  | vNone : Value
  | vStr (s : String) : Value
  | vInt (n : Int) : Value
  | vStrList (xs : List String) : Value
deriving DecidableEq, Repr

/-- Python exceptions observable by `run_generated_code`'s `except` chain.
`other` covers any further `Exception` subclass, carrying its type name. -/
inductive PyExc where
  | syntaxError (msg : String) (lineno offset : Option Nat) : PyExc
  | fileNotFound (msg strerror : String) : PyExc
  | keyError (key : String) : PyExc
  | emptyDataError (msg : String) : PyExc
  | importError (msg : String) : PyExc
  | nameError (name : String) : PyExc
  | valueError (msg : String) : PyExc
  | other (typeName msg : String) : PyExc
deriving DecidableEq, Repr

/-- Rendering of `None`-able ints inside Python f-strings (`f"line {e.lineno}"`
prints `None` when the attribute is `None`). -/
def optNatRepr : Option Nat → String
  | some n => toString n
  | none => "None"

/-- Python `type(e).__name__` for the modelled exceptions. -/
def PyExc.typeName : PyExc → String
  | .syntaxError .. => "SyntaxError"
  | .fileNotFound .. => "FileNotFoundError"
  | .keyError .. => "KeyError"
  | .emptyDataError .. => "EmptyDataError"
  | .importError .. => "ImportError"
  | .nameError .. => "NameError"
  | .valueError .. => "ValueError"
  | .other t _ => t

/-- Python `str(e)` for the modelled exceptions (`str` of a `KeyError` is the
repr of the missing key, i.e. quoted). -/
def PyExc.str : PyExc → String
  | .syntaxError m li off => m ++ " (line " ++ optNatRepr li ++ ", offset " ++ optNatRepr off ++ ")"
  | .fileNotFound m _ => m
  | .keyError k => "\x27" ++ k ++ "\x27"
  | .emptyDataError m => m
  | .importError m => m
  | .nameError n => "name \x27" ++ n ++ "\x27 is not defined"
  | .valueError m => m
  | .other _ m => m

/-- The result of `ast.parse` / of compiling the candidate source inside
`exec`: parses, fails with a `SyntaxError`, or `ast.parse` raises some other
error (e.g. `ValueError` on null bytes). -/
inductive ParseOutcome where
  | ok : ParseOutcome
  | syntaxErr (msg : String) (lineno offset : Option Nat) : ParseOutcome
  | otherErr (msg : String) : ParseOutcome
deriving DecidableEq, Repr

/-- Behaviour of a call to the candidate's entry-point function
`query_data_for_question()`: return a value, raise, or never return. -/
inductive CallBehavior where
  | returns (v : Value) : CallBehavior
  | raises (e : PyExc) : CallBehavior
  | diverges : CallBehavior
deriving DecidableEq, Repr

/-- Statements of a candidate module body, at the granularity
`run_generated_code` can observe: imports (which consult `__builtins__` for
`__import__`), a `def query_data_for_question`, a rebinding of that name to a
non-callable, other definitions, a raising statement, or a no-op. -/
inductive Stmt where
  | stImport (moduleName asName : String) : Stmt
  | defEntry (call : CallBehavior) : Stmt
  | assignEntryNonCallable : Stmt
  | defOther (name : String) : Stmt
  | raiseStmt (e : PyExc) : Stmt
  | passStmt : Stmt
deriving DecidableEq, Repr

/-- A candidate program: its source text plus the behaviour the pipeline
observes (parse outcome and module-body statements). -/
structure Cand where
  text : String
  parse : ParseOutcome
  body : List Stmt
deriving DecidableEq, Repr

/-! ## The restricted `exec` environment (`execute_json_query.py`, lines 52-118) -/

/-- The names placed in the `__builtins__` dict of `restricted_globals`
(`execute_json_query.py` lines 53-75).  Neither `open` nor `__import__` is
among them. -/
def sandboxBuiltinNames : List String :=
  ["print", "list", "dict", "str", "int", "float", "len", "sorted", "any",
   "all", "range", "zip", "enumerate", "isinstance", "Exception", "ValueError",
   "TypeError", "KeyError", "FileNotFoundError", "StopIteration", "datetime"]

/-- An entry of the globals table handed to `exec`: the builtins dict, the
`json` module, the full `pandas` module (bound as `pd`), or one of the three
injected path strings. -/
inductive SandboxEntry where
  | builtinsTable (names : List String) : SandboxEntry
  | jsonModule : SandboxEntry
  | pandasModule : SandboxEntry
  | pathBinding (p : String) : SandboxEntry
deriving DecidableEq, Repr

/-- The `restricted_globals` dict of `execute_json_query.py`: the exact capability
table passed to `exec` (lines 52-118). -/
def restricted_globals (json_base_path all_emails_csv_path master_links_csv_path : String) :
    List (String × SandboxEntry) :=
  [("__builtins__", .builtinsTable sandboxBuiltinNames),
   ("json", .jsonModule),
   ("pd", .pandasModule),
   ("MASTER_LINKS_CSV_FILE_PATH", .pathBinding master_links_csv_path),
   ("ALL_EMAILS_CSV_FILE_PATH", .pathBinding all_emails_csv_path),
   ("JSON_BASE_DIR_PATH", .pathBinding json_base_path)]

/-- Which filesystem paths a program holding a given table entry can open.
The builtins table contains no `open`, and the `json` module offers only
loaders over already-open file objects, so neither opens any path.  A path
binding is a plain string (itself opening nothing).  The `pandas` module is
exposed precisely so that generated code can call `pd.read_csv` (source
comment, line 77), and `pandas.read_csv` opens whatever path string its caller
passes — any path at all. -/
def SandboxEntry.opensPath : SandboxEntry → String → Bool
  | .pandasModule, _ => true
  | .builtinsTable _, _ => false
  | .jsonModule, _ => false
  | .pathBinding _, _ => false

/-- A path is reachable from the capability table if some entry opens it. -/
def canReachPath (g : List (String × SandboxEntry)) (p : String) : Bool :=
  g.any fun kv => kv.2.opensPath p

/-- The explicitly injected path bindings of a capability table. -/
def injectedPathBindings (g : List (String × SandboxEntry)) : List String :=
  g.filterMap fun kv =>
    match kv.2 with
    | .pathBinding p => some p
    | _ => none

/-! ## `run_generated_code` (`execute_json_query.py`, lines 19-165) -/

/-- The execution-result dict
`{'success': ..., 'data': ..., 'error': ..., 'details': ...}` (the `details`
key is absent from the success and missing-entry-point dicts). -/
structure ExecDict where
  success : Bool
  data : Option Value
  error : Option String
  details : Option String
deriving DecidableEq, Repr

/-- Module-level globals of `execute_json_query.py` itself: the module imports
`json`, `csv`, `pandas`, `os` and `datetime` (lines 1-5).  In particular the
name `pd` is NOT bound at module level — `pandas` is. -/
def executeModuleGlobals : List String :=
  ["json", "csv", "pandas", "os", "datetime", "run_generated_code"]

/-- Exception classes named by the `except` clauses of `run_generated_code`. -/
inductive ExcClass where
  | syntaxErrorC : ExcClass
  | fileNotFoundC : ExcClass
  | keyErrorC : ExcClass
  | emptyDataC : ExcClass
  | exceptionC : ExcClass
deriving DecidableEq, Repr

/-- Python instance check used when matching an `except` clause.  Every
modelled exception is an `Exception` subclass. -/
def ExcClass.matches : ExcClass → PyExc → Bool
  | .syntaxErrorC, .syntaxError .. => true
  | .syntaxErrorC, _ => false
  | .fileNotFoundC, .fileNotFound .. => true
  | .fileNotFoundC, _ => false
  | .keyErrorC, .keyError .. => true
  | .keyErrorC, _ => false
  | .emptyDataC, .emptyDataError .. => true
  | .emptyDataC, _ => false
  | .exceptionC, _ => true

/-- The class expression of an `except` clause: either a bare builtin name
(`SyntaxError`, ...) or an attribute chain rooted at a module-global name
(`pd.errors.EmptyDataError`). -/
inductive ClassExpr where
  | builtinRef (c : ExcClass) : ClassExpr
  | moduleAttr (baseName : String) (c : ExcClass) : ClassExpr
deriving DecidableEq, Repr

/-- Evaluating an `except` clause's class expression, as Python does when the
clause is reached: a bare builtin resolves; an attribute chain first looks its
base name up in the module globals and raises `NameError` when absent. -/
def evalClassExpr : ClassExpr → Except PyExc ExcClass
  | .builtinRef c => .ok c
  | .moduleAttr base c =>
      if base ∈ executeModuleGlobals then .ok c else .error (.nameError base)

/-- Walking the `except` clauses in order with exception `e`: evaluate each
class expression (an error there replaces and re-raises), run the first
matching handler, and re-raise `e` if none matches. -/
def matchHandlers (e : PyExc) : List (ClassExpr × (PyExc → ExecDict)) → Except PyExc ExecDict
  | [] => .error e
  | (ce, h) :: rest =>
      match evalClassExpr ce with
      | .error e2 => .error e2
      | .ok c => if c.matches e then .ok (h e) else matchHandlers e rest

/-- Handler of `except SyntaxError as e` (line 152). -/
def syntaxErrorHandler (e : PyExc) : ExecDict :=
  match e with
  | .syntaxError m li off =>
      { success := false, data := none
        error := some ("SyntaxError in generated code: " ++ m ++ " (line " ++
          optNatRepr li ++ ", offset " ++ optNatRepr off ++ ")")
        details := some e.str }
  | _ => { success := false, data := none, error := some e.str, details := some e.str }

/-- Handler of `except FileNotFoundError as e` (lines 153-156). -/
def fileNotFoundHandler (json_base_path all_emails_csv_path master_links_csv_path : String)
    (e : PyExc) : ExecDict :=
  { success := false, data := none
    error := some ("FileNotFoundError: " ++ e.str ++
      ". Ensure files exist at provided paths. JSON Base: " ++ json_base_path ++
      ", Master Links CSV: " ++ master_links_csv_path ++
      ", All Emails CSV: " ++ all_emails_csv_path)
    details := some (match e with | .fileNotFound _ strerror => strerror | _ => e.str) }

/-- Handler of `except KeyError as e` (lines 157-158). -/
def keyErrorHandler (e : PyExc) : ExecDict :=
  { success := false, data := none
    error := some ("KeyError: " ++ e.str ++
      ". This often means the code tried to access a dictionary key that doesn\x27t exist. Check if JSON/dictionary keys in the generated code match the actual data structure and schema.")
    details := some ("Key: " ++ e.str) }

/-- Handler of `except pd.errors.EmptyDataError as e` (lines 159-160). -/
def emptyDataHandler (e : PyExc) : ExecDict :=
  { success := false, data := none
    error := some ("Pandas EmptyDataError: " ++ e.str ++
      ". This means a CSV file might be empty or improperly formatted.")
    details := some e.str }

/-- The redacted-in-intent trace text stored by the generic handler
(`traceback.format_exc()`). -/
def formatTraceback (e : PyExc) : String :=
  "Traceback (most recent call last):\n  ...\n" ++ e.typeName ++ ": " ++ e.str

/-- Handler of `except Exception as e` (lines 161-165). -/
def unexpectedHandler (e : PyExc) : ExecDict :=
  { success := false, data := none
    error := some ("An unexpected error occurred during execution of generated code: " ++
      e.typeName ++ " - " ++ e.str)
    details := some (formatTraceback e) }

/-- The `except` chain of `run_generated_code`, in source order (lines
151-165).  The fourth clause's class expression is the attribute chain
`pd.errors.EmptyDataError`, whose base name `pd` must be resolved in the
module's globals when the clause is reached. -/
def runHandlers (json_base_path all_emails_csv_path master_links_csv_path : String) :
    List (ClassExpr × (PyExc → ExecDict)) :=
  [(.builtinRef .syntaxErrorC, syntaxErrorHandler),
   (.builtinRef .fileNotFoundC,
      fileNotFoundHandler json_base_path all_emails_csv_path master_links_csv_path),
   (.builtinRef .keyErrorC, keyErrorHandler),
   (.moduleAttr "pd" .emptyDataC, emptyDataHandler),
   (.builtinRef .exceptionC, unexpectedHandler)]

/-- The `local_scope` dict after `exec`: does it bind `query_data_for_question`,
and to what. -/
inductive EntryBinding where
  | callable (call : CallBehavior) : EntryBinding
  | nonCallable : EntryBinding
deriving DecidableEq, Repr

/-- Scope accumulated while executing the module body. -/
structure LocalScope where
  entry : Option EntryBinding
  others : List String
deriving DecidableEq, Repr

/-- Executing the module-body statements under `restricted_globals`.  An
`import` statement looks `__import__` up in the `__builtins__` dict of the
`exec` globals and raises `ImportError` when it is absent (it is: see
`sandboxBuiltinNames`). -/
def execStmts : List Stmt → LocalScope → Except PyExc LocalScope
  | [], sc => .ok sc
  | s :: rest, sc =>
      match s with
      | .stImport _ _ =>
          if "__import__" ∈ sandboxBuiltinNames then
            execStmts rest sc
          else
            .error (.importError "__import__ not found")
      | .defEntry call => execStmts rest { sc with entry := some (.callable call) }
      | .assignEntryNonCallable => execStmts rest { sc with entry := some .nonCallable }
      | .defOther n => execStmts rest { sc with others := n :: sc.others }
      | .raiseStmt e => .error e
      | .passStmt => execStmts rest sc

/-- The dict returned when `query_data_for_question` is absent or not callable
(line 149). -/
def missingEntryDict : ExecDict :=
  { success := false, data := none
    error := some "Function \x27query_data_for_question\x27 not found or not callable in generated code."
    details := none }

/-- Outcome of the `try` block body of `run_generated_code`: a returned dict,
a raised exception, or a call that never returns. -/
inductive TryOut where
  | ret (d : ExecDict) : TryOut
  | exc (e : PyExc) : TryOut
  | hang : TryOut
deriving DecidableEq, Repr

/-- The `try` block of `run_generated_code` (lines 133-149): compile and exec
the candidate source, locate `query_data_for_question` in `local_scope`, call
it with no arguments, and wrap a returned value as a success dict. -/
def tryBody (cand : Cand) : TryOut :=
  match cand.parse with
  | .syntaxErr m li off => .exc (.syntaxError m li off)
  | .otherErr m => .exc (.valueError m)
  | .ok =>
      match execStmts cand.body { entry := none, others := [] } with
      | .error e => .exc e
      | .ok sc =>
          match sc.entry with
          | some (.callable call) =>
              match call with
              | .returns v => .ret { success := true, data := some v, error := none, details := none }
              | .raises e => .exc e
              | .diverges => .hang
          | some .nonCallable => .ret missingEntryDict
          | none => .ret missingEntryDict

/-- What one call of `run_generated_code` does, seen from its caller: return
the result dict, itself raise an exception, or never return (the synchronous
call into the candidate blocked). -/
inductive RunResult where
  | returned (d : ExecDict) : RunResult
  | raised (e : PyExc) : RunResult
  | blocked : RunResult
deriving DecidableEq, Repr

/-- Is the run an ordinary return of a dict? -/
def RunResult.isReturned : RunResult → Bool
  | .returned _ => true
  | _ => false

/-- Did the run return a dict with `success = False`? -/
def RunResult.returnsFailure : RunResult → Bool
  | .returned d => !d.success
  | _ => false

/-- Embedding of `run_generated_code` (`execute_json_query.py`, lines 19-165): execute the
candidate inside the restricted environment and classify any exception through
the `except` chain.  There is no timeout, watchdog or resource ceiling around
the call: a candidate whose entry point never returns blocks the caller. -/
def run_generated_code (cand : Cand)
    (json_base_path all_emails_csv_path master_links_csv_path : String) : RunResult :=
  match tryBody cand with
  | .ret d => .returned d
  | .hang => .blocked
  | .exc e =>
      match matchHandlers e (runHandlers json_base_path all_emails_csv_path master_links_csv_path) with
      | .ok d => .returned d
      | .error e2 => .raised e2

/-! ## `ValidateJSONQueryAgent` (`agents/ValidateJSONQueryAgent.py`) -/

/-- The dict returned by `_validate_python_syntax` (lines 68-86). -/
structure SyntaxCheck where
  is_valid : Bool
  error_message : Option String
  details : Option String
deriving DecidableEq, Repr

/-- The message built on parse failure (line 78):
`f"SyntaxError: {e.msg} (line {e.lineno}, offset {e.offset})"`. -/
def syntaxErrorMessage (msg : String) (lineno offset : Option Nat) : String :=
  "SyntaxError: " ++ msg ++ " (line " ++ optNatRepr lineno ++ ", offset " ++
    optNatRepr offset ++ ")"

/-- Embedding of `_validate_python_syntax`: run `ast.parse` on the candidate; report a
`SyntaxError` with line and offset, or any other parse error, or success. -/
def validate_python_syntax (cand : Cand) : SyntaxCheck :=
  match cand.parse with
  | .ok =>
      { is_valid := true, error_message := none
        details := some "Code is syntactically valid." }
  | .syntaxErr m li off =>
      { is_valid := false
        error_message := some (syntaxErrorMessage m li off)
        details := some (PyExc.str (.syntaxError m li off)) }
  | .otherErr m =>
      { is_valid := false
        error_message := some ("Error during ast.parse: " ++ m)
        details := some m }

/-- The dict returned by `validate_code` (lines 88-162). -/
structure ValidationResult where
  is_valid : Bool
  error_type : Option String
  error_message : Option String
  details : Option String
  llm_check : String
deriving DecidableEq, Repr

/-- The supplementary-validation prompt (`PYTHON_VALIDATION_PROMPT_TEMPLATE`
formatted with the code, question and schema; the spec leaves prompt wording
out of scope, so the template text is abbreviated to its slots). -/
def validationPrompt (python_code user_question json_schema_description : String) : String :=
  "PYTHON_VALIDATION_PROMPT code: " ++ python_code ++ " question: " ++
    user_question ++ " schema: " ++ json_schema_description

/-- The closing dict of `validate_code` (lines 157-162). -/
def validationOkResult (llm_check_text : String) : ValidationResult :=
  { is_valid := true, error_type := none, error_message := none
    details := some "Code is syntactically valid. LLM supplementary check (if performed) found no critical issues or was not configured."
    llm_check := llm_check_text }

/-- Embedding of `validate_code` (lines 88-162).  The primary check is `ast.parse`
(`validate_python_syntax`); on its failure the supplementary LLM check is
skipped and the verdict carries `error_type = "syntax_error"`.  The optional
LLM check is modelled by an oracle returning either the response text or the
message of a raised exception. -/
def validate_code (use_llm : Bool) (llm : String → Except String String)
    (user_question json_schema_desc : String) (cand : Cand) : ValidationResult :=
  let s := validate_python_syntax cand
  if s.is_valid then
    if use_llm then
      match llm (validationPrompt cand.text user_question json_schema_desc) with
      | .ok resp =>
          let t := resp.trim
          if t.toUpper.startsWith "INVALID" then
            { is_valid := false, error_type := some "llm_identified_issue"
              error_message := some ("LLM supplementary check flagged potential issue: " ++ t)
              details := some t, llm_check := t }
          else validationOkResult t
      | .error emsg => validationOkResult ("Error: " ++ emsg)
    else validationOkResult "Not performed."
  else
    { is_valid := false, error_type := some "syntax_error"
      error_message := s.error_message
      details := s.details
      llm_check := "Not performed due to syntax error." }

/-! ## `ResponseAgent.run` (`agents/ResponseAgent.py`, lines 46-144) -/

/-- Rendering of `execution_result.get('data')` into the string interpolated
into the success prompt (lines 97-109): strings pass through, lists and dicts
are JSON-dumped, `None` becomes a fixed sentence, anything else is `str`-ed. -/
def renderData : Option Value → String
  | some (.vStr s) => s
  | some (.vStrList xs) =>
      "[" ++ String.intercalate ", " (xs.map fun s => "\x22" ++ s ++ "\x22") ++ "]"
  | some (.vInt n) => toString n
  | some .vNone => "No data was returned from the query."
  | none => "No data was returned from the query."

/-- The error-explanation prompt (lines 68-86): the template with the user
question, the error message and the (possibly redacted) details interpolated.
The `details` slot receives the raw `details` field whenever it is non-empty
and shorter than 500 characters. -/
def errorPrompt (user_question error details : String) : String :=
  "\nUser\x27s question: " ++ user_question ++
  "\nAn error occurred while trying to get the answer for the user.\n" ++
  "Error Message: \x22" ++ error ++ "\x22\n" ++
  "Error Details: \x22" ++ details ++ "\x22\n\n" ++
  "Please explain this error to a non-technical user in a brief, polite, and helpful manner.\n" ++
  "Do not try to make up an answer for the original user question. Focus on explaining the problem.\nYour explanation:\n"

/-- The success prompt (`NL_RESPONSE_PROMPT_TEMPLATE_ADAPTED`, lines 112-135). -/
def nlResponsePrompt (user_question execution_data_string : String) : String :=
  "NL_RESPONSE_PROMPT question: " ++ user_question ++ " data: " ++ execution_data_string

/-- Embedding of `ResponseAgent.run` (lines 46-144), with the LLM call modelled by an
oracle (`.ok` = returned text, `.error` = the call raised).  On a failed
execution result it prompts the LLM to explain the error — interpolating the
`details` field into the prompt when non-empty and under 500 characters — and
prefixes the LLM text with an apology; if the LLM call raises it falls back to
a templated message built from the `error` field. -/
def response_agent_run (llm : String → Except String String)
    (user_question : String) (execution_result : ExecDict) : String :=
  if !execution_result.success then
    let error_message := execution_result.error.getD "An unspecified error occurred during query execution."
    let error_details := execution_result.details.getD ""
    let detailsArg :=
      if error_details ≠ "" ∧ error_details.length < 500 then error_details
      else "No further specific details."
    match llm (errorPrompt user_question error_message detailsArg) with
    | .ok error_explanation =>
        "I\x27m sorry, I couldn\x27t answer your question. " ++ error_explanation
    | .error _ =>
        "I\x27m sorry, I encountered an error processing your request: " ++ error_message ++
          ". Please try again later or contact support if the issue persists."
  else
    let execution_data_string := renderData execution_result.data
    match llm (nlResponsePrompt user_question execution_data_string) with
    | .ok t => t
    | .error _ =>
        "I found some information, but I had trouble phrasing a response. The raw data is: " ++
          execution_data_string

/-! ## `run_json_query_pipeline` (`opendataqna_json_modifications_outline.py`, lines 110-293)

The pipeline is embedded with its external collaborators as oracles: the
builder result is an input, the debugger (repair collaborator) and the
responder are function parameters.  The validator inside the pipeline is the
embedded `validate_code`, instantiated exactly as the pipeline constructs it —
`ValidateJSONQueryAgent(..., use_llm_for_supplementary_validation=False)`
(line 162 of the source file), i.e. with the supplementary LLM check off.
Alongside its result the embedding returns the trace of validator, debugger
and executor invocations, so that ordering and counting claims can be stated
about actual invocations. -/

/-- The dict returned by `BuildJSONQueryAgent.generate_python_query_code` as
the pipeline reads it (lines 186-201). -/
structure BuilderResult where
  status : String
  python_code : Option Cand
  error_message : Option String
deriving Repr

/-- The dict returned by `DebugJSONQueryAgent.debug_python_code` as the
pipeline reads it (lines 226-243). -/
structure DebuggerResult where
  status : String
  corrected_code : Option Cand
deriving DecidableEq, Repr

/-- One collaborator invocation made by the pipeline. -/
inductive Event where
  | validatedEv (c : Cand) (is_valid : Bool) : Event
  | repairedEv (input : Cand) (errMsg : String) (result : DebuggerResult) : Event
  | executedEv (c : Cand) (r : RunResult) : Event
deriving DecidableEq, Repr

/-- Outcome of the `while debug_attempt < debugging_rounds` loop
(lines 209-244): code validated (with the number of repair invocations used so
far), early return because the debugger failed to correct, or rounds
exhausted without a passing validation. -/
inductive LoopOut where
  | validated (c : Cand) (attempt : Nat) : LoopOut
  | debugFailed (c : Cand) (lastErr : String) (attempt : Nat) : LoopOut
  | exhausted (c : Cand) (attempt : Nat) : LoopOut
deriving DecidableEq, Repr

/-- The validate-and-debug loop (lines 209-244), recursing on the remaining
round budget (`fuel = debugging_rounds - debug_attempt`).  Each iteration
validates the current code; on a passing verdict it breaks; otherwise it
invokes the debugger, adopting the corrected code only when the debugger
reports `status == "success"` with a non-null correction, and returning early
otherwise. -/
def debugLoop (debugger : Cand → String → DebuggerResult)
    (user_question json_schema_desc : String) :
    Nat → Nat → Cand → LoopOut × List Event
  | 0, attempt, c => (.exhausted c attempt, [])
  | fuel + 1, attempt, c =>
      let v := validate_code false (fun _ => .error "not used") user_question json_schema_desc c
      if v.is_valid then
        (.validated c attempt, [.validatedEv c true])
      else
        let msg := v.error_message.getD "Validation failed."
        let d := debugger c msg
        match d.status == "success", d.corrected_code with
        | true, some c2 =>
            let rest := debugLoop debugger user_question json_schema_desc fuel (attempt + 1) c2
            (rest.1, .validatedEv c false :: .repairedEv c msg d :: rest.2)
        | _, _ =>
            (.debugFailed c msg attempt, [.validatedEv c false, .repairedEv c msg d])

/-- The dict handed to the responder when code generation fails (line 199). -/
def codeGenerationErrorDict (builderErrMsg : Option String) : ExecDict :=
  { success := false, data := none
    error := some "CodeGenerationError"
    details := some (builderErrMsg.getD "Initial code generation failed.") }

/-- The dict handed to the responder when the debugger fails to correct
(line 241). -/
def debuggingFailedDict (debug_attempt : Nat) (lastValidationError : String) : ExecDict :=
  { success := false, data := none
    error := some "DebuggingFailed"
    details := some ("Could not validate or debug the generated code after " ++
      toString (debug_attempt + 1) ++ " attempts. Last validation error: " ++
      lastValidationError) }

/-- The dict handed to the responder when the rounds are exhausted without a
passing validation (line 249). -/
def validationFailedAfterDebugDict : ExecDict :=
  { success := false, data := none
    error := some "ValidationFailedAfterDebug"
    details := some "The system could not generate valid query code for your request." }

/-- The dict returned by the pipeline (lines 288-293), with the session
bookkeeping omitted. -/
structure PipelineOutput where
  generated_code : Option Cand
  execution_result : Option ExecDict
  natural_language_response : String
deriving Repr

/-- What the pipeline call does, seen from its caller: return its dict, raise
an exception that escaped `run_generated_code` unhandled, or block forever
inside the synchronous execution call. -/
inductive PipeOutcome where
  | done (out : PipelineOutput) : PipeOutcome
  | raised (e : PyExc) : PipeOutcome
  | blocked : PipeOutcome
deriving Repr

/-- Step 4 of the pipeline (lines 256-277): execute the current code and hand
the result dict to the responder. -/
def executeAndRespond (respond : String → ExecDict → String)
    (user_question json_base_path all_emails_csv_path master_links_csv_path : String)
    (c : Cand) : PipeOutcome × List Event :=
  let r := run_generated_code c json_base_path all_emails_csv_path master_links_csv_path
  match r with
  | .returned d =>
      (.done { generated_code := some c, execution_result := some d
               natural_language_response := respond user_question d },
       [.executedEv c r])
  | .raised e => (.raised e, [.executedEv c r])
  | .blocked => (.blocked, [.executedEv c r])

/-- Embedding of `run_json_query_pipeline` (lines 110-293): builder result, then — when
`run_debugger` is set — the validate-and-debug loop, then a single execution
of the final code, then the responder.  When `run_debugger` is false the
validation and debugging step is skipped entirely and the generated code is
executed directly (lines 252-254). -/
def run_json_query_pipeline (builder_result : BuilderResult)
    (debugger : Cand → String → DebuggerResult)
    (respond : String → ExecDict → String)
    (run_debugger : Bool) (debugging_rounds : Nat)
    (user_question json_schema_desc : String)
    (json_base_path all_emails_csv_path master_links_csv_path : String) :
    PipeOutcome × List Event :=
  match builder_result.python_code, builder_result.status == "success" with
  | some generated_code, true =>
      if run_debugger then
        let loop := debugLoop debugger user_question json_schema_desc
          debugging_rounds 0 generated_code
        match loop.1 with
        | .validated c _ =>
            let ex := executeAndRespond respond user_question
              json_base_path all_emails_csv_path master_links_csv_path c
            (ex.1, loop.2 ++ ex.2)
        | .debugFailed c lastErr attempt =>
            let d := debuggingFailedDict attempt lastErr
            (.done { generated_code := some c, execution_result := none
                     natural_language_response := respond user_question d },
             loop.2)
        | .exhausted c _ =>
            let d := validationFailedAfterDebugDict
            (.done { generated_code := some c, execution_result := none
                     natural_language_response := respond user_question d },
             loop.2)
      else
        executeAndRespond respond user_question
          json_base_path all_emails_csv_path master_links_csv_path generated_code
  | _, _ =>
      let d := codeGenerationErrorDict builder_result.error_message
      (.done { generated_code := none, execution_result := none
               natural_language_response := respond user_question d },
       [])

/-! ### Trace observations -/

/-- Is the event an executor invocation? -/
def Event.isExecution : Event → Bool
  | .executedEv .. => true
  | _ => false

/-- Is the event a repair-collaborator (debugger) invocation? -/
def Event.isRepair : Event → Bool
  | .repairedEv .. => true
  | _ => false

/-- Is the event a validator invocation? -/
def Event.isValidation : Event → Bool
  | .validatedEv .. => true
  | _ => false

/-- Number of repair-collaborator (debugger) invocations in a trace. -/
def repairCount (tr : List Event) : Nat :=
  tr.countP fun e => e.isRepair

/-- Number of validator invocations in a trace. -/
def validationCount (tr : List Event) : Nat :=
  tr.countP fun e => e.isValidation

/-- Number of executor invocations in a trace. -/
def executionCount (tr : List Event) : Nat :=
  tr.countP fun e => e.isExecution

/-- Number of executor invocations that returned a `success = False` dict. -/
def failedExecutionCount (tr : List Event) : Nat :=
  tr.countP fun e => match e with | .executedEv _ r => r.returnsFailure | _ => false

/-- Holds (as `true`) when no repair-collaborator invocation occurs anywhere after an
executor invocation in the trace. -/
def noRepairAfterExecution : List Event → Bool
  | [] => true
  | .executedEv _ _ :: rest => rest.all fun e => !e.isRepair
  | _ :: rest => noRepairAfterExecution rest

/-- Membership in a list of candidates, by structural equality. -/
def candMem (c : Cand) : List Cand → Bool
  | [] => false
  | d :: rest => if c = d then true else candMem c rest

/-- Auxiliary scan for `executionPrecededByValidation`: `seen` collects the
candidates validated with a passing verdict so far; every executed candidate
must already be in `seen`. -/
def epvAux (seen : List Cand) : List Event → Bool
  | [] => true
  | .validatedEv c true :: rest => epvAux (c :: seen) rest
  | .validatedEv _ false :: rest => epvAux seen rest
  | .repairedEv .. :: rest => epvAux seen rest
  | .executedEv c _ :: rest => candMem c seen && epvAux seen rest

/-- Holds (as `true`) when every executed candidate passed validation, itself, earlier in
the trace. -/
def executionPrecededByValidation (tr : List Event) : Bool :=
  epvAux [] tr

/-! ## Concrete fixtures

Concrete candidates and collaborators used to evaluate the embedding at
specific inputs (counterexamples and witnesses). -/

/-- The check `function_name_to_call in local_scope and callable(...)`
(line 143 of `execute_json_query.py`). -/
def LocalScope.entryCallable (sc : LocalScope) : Bool :=
  match sc.entry with
  | some (.callable _) => true
  | _ => false

/-- A syntactically valid candidate that defines no entry point. -/
def candNoEntry : Cand :=
  { text := "x = 1", parse := .ok, body := [.defOther "x"] }

/-- A candidate whose entry point never returns. -/
def candDiverges : Cand :=
  { text := "def query_data_for_question():\n    while 1 < 2:\n        pass",
    parse := .ok, body := [.defEntry .diverges] }

/-- A syntactically invalid candidate (missing colon on line 1, column 30). -/
def candSyntaxError : Cand :=
  { text := "def query_data_for_question()\n    return 1",
    parse := .syntaxErr "invalid syntax" (some 1) (some 30), body := [] }

/-- A candidate of the shape the builder and debugger prompts request:
it begins with `import pandas as pd` and defines the entry point. -/
def candImportPrompt : Cand :=
  { text := "import pandas as pd\ndef query_data_for_question():\n    return []",
    parse := .ok,
    body := [.stImport "pandas" "pd", .defEntry (.returns (.vStrList []))] }

/-- A candidate whose entry point raises a `ValueError` — an exception of
none of the three individually handled classes. -/
def candRaisesValueError : Cand :=
  { text := "def query_data_for_question():\n    raise ValueError(\x22boom\x22)",
    parse := .ok, body := [.defEntry (.raises (.valueError "boom"))] }

/-- A syntactically valid candidate whose module body raises before defining
anything. -/
def candBodyRaises : Cand :=
  { text := "raise ValueError(\x22early\x22)",
    parse := .ok, body := [.raiseStmt (.valueError "early")] }

/-- A builder result that successfully produced the given candidate. -/
def builderOk (c : Cand) : BuilderResult :=
  { status := "success", python_code := some c, error_message := none }

/-- A repair collaborator that always reports success with a fixed
correction: repair is available whenever the pipeline asks for it. -/
def debuggerAlwaysFixes (fix : Cand) : Cand → String → DebuggerResult :=
  fun _ _ => { status := "success", corrected_code := some fix }

/-- A responder oracle returning a fixed string. -/
def respondStub : String → ExecDict → String :=
  fun _ _ => "response"

/-- An LLM oracle that echoes its prompt back as the generated text. -/
def llmEcho : String → Except String String :=
  fun p => .ok p

/-- A failed execution result whose `details` field holds a short internal
trace. -/
def c9Res : ExecDict :=
  { success := false, data := none
    error := some "KeyError: subject"
    details := some "SECRET_INTERNAL_TRACE" }

/-- The user-facing text produced for `c9Res` under the echoing LLM, up to
the interpolated `details` field. -/
def c9Before : String :=
  "I\x27m sorry, I couldn\x27t answer your question. " ++
  "\nUser\x27s question: q" ++
  "\nAn error occurred while trying to get the answer for the user.\n" ++
  "Error Message: \x22KeyError: subject\x22\n" ++
  "Error Details: \x22"

/-- The user-facing text produced for `c9Res` under the echoing LLM, after
the interpolated `details` field. -/
def c9After : String :=
  "\x22\n\n" ++
  "Please explain this error to a non-technical user in a brief, polite, and helpful manner.\n" ++
  "Do not try to make up an answer for the original user question. Focus on explaining the problem.\nYour explanation:\n"

/-! ## Structural lemmas about the validate-and-debug loop -/

/-- With the supplementary LLM check off — as the pipeline instantiates the
validator — a candidate passes `validate_code` exactly when it parses. -/
theorem validate_code_no_llm_is_valid (llm : String → Except String String)
    (q s : String) (c : Cand) :
    (validate_code false llm q s c).is_valid = true ↔ c.parse = .ok := by
  cases h : c.parse <;>
    simp [validate_code, validate_python_syntax, validationOkResult, h]

/-- The loop invokes only the validator and the debugger: its event list
contains no executor invocation. -/
theorem debugLoop_no_execution (dbg : Cand → String → DebuggerResult) (q s : String) :
    ∀ (fuel attempt : Nat) (c : Cand),
      ((debugLoop dbg q s fuel attempt c).2.all fun e => !e.isExecution) = true := by
  intro fuel
  induction fuel with
  | zero => intro attempt c; rfl
  | succ n ih =>
      intro attempt c
      unfold debugLoop
      by_cases hv : (validate_code false (fun _ => .error "not used") q s c).is_valid = true
      · simp [hv, Event.isExecution]
      · simp only [hv, if_false, Bool.false_eq_true]
        set msg := (validate_code false (fun _ => .error "not used") q s c).error_message.getD
          "Validation failed." with hmsg
        cases hs : ((dbg c msg).status == "success") <;>
          cases hc : (dbg c msg).corrected_code
        · simp [hs, hc, Event.isExecution]
        · simp [hs, hc, Event.isExecution]
        · simp [hs, hc, Event.isExecution]
        · rename_i c2
          have h2 := ih (attempt + 1) c2
          simp [hs, hc, Event.isExecution] at h2 ⊢
          exact h2

/-- The loop performs at most `fuel` repair invocations. -/
theorem debugLoop_repairCount (dbg : Cand → String → DebuggerResult) (q s : String) :
    ∀ (fuel attempt : Nat) (c : Cand),
      repairCount (debugLoop dbg q s fuel attempt c).2 ≤ fuel := by
  intro fuel
  induction fuel with
  | zero => intro attempt c; simp [debugLoop, repairCount]
  | succ n ih =>
      intro attempt c
      unfold debugLoop
      by_cases hv : (validate_code false (fun _ => .error "not used") q s c).is_valid = true
      · simp [hv, repairCount, Event.isRepair]
      · simp only [hv, if_false, Bool.false_eq_true]
        set msg := (validate_code false (fun _ => .error "not used") q s c).error_message.getD
          "Validation failed." with hmsg
        cases hs : ((dbg c msg).status == "success") <;>
          cases hc : (dbg c msg).corrected_code
        · simp [hs, hc, repairCount, Event.isRepair, List.countP_cons]
        · simp [hs, hc, repairCount, Event.isRepair, List.countP_cons]
        · simp [hs, hc, repairCount, Event.isRepair, List.countP_cons]
        · rename_i c2
          have h2 := ih (attempt + 1) c2
          simp only [repairCount, Event.isRepair] at h2 ⊢
          simp [hs, hc, List.countP_cons]
          omega

/-- A trace without executor invocations trivially has no repair after an
execution. -/
theorem noRepairAfterExecution_of_no_execution :
    ∀ (evs : List Event), (evs.all fun e => !e.isExecution) = true →
      noRepairAfterExecution evs = true := by
  intro evs
  induction evs with
  | nil => intro _; rfl
  | cons e rest ih =>
      intro h
      rw [List.all_cons] at h
      cases e with
      | validatedEv c b => exact ih (by exact (Bool.and_eq_true _ _ ▸ h).2)
      | repairedEv c m d => exact ih (by exact (Bool.and_eq_true _ _ ▸ h).2)
      | executedEv c r => simp [Event.isExecution] at h

/-- Appending a single executor invocation to an execution-free trace keeps
the no-repair-after-execution property. -/
theorem noRepairAfterExecution_append_exec :
    ∀ (evs : List Event) (c : Cand) (r : RunResult),
      (evs.all fun e => !e.isExecution) = true →
      noRepairAfterExecution (evs ++ [.executedEv c r]) = true := by
  intro evs
  induction evs with
  | nil => intro c r _; rfl
  | cons e rest ih =>
      intro c r h
      rw [List.all_cons] at h
      cases e with
      | validatedEv c2 b => exact ih c r (Bool.and_eq_true _ _ ▸ h).2
      | repairedEv c2 m d => exact ih c r (Bool.and_eq_true _ _ ▸ h).2
      | executedEv c2 r2 => simp [Event.isExecution] at h

/-- An execution-free trace satisfies the validated-before-executed scan for
any set of already-validated candidates. -/
theorem epvAux_of_no_execution :
    ∀ (evs : List Event) (seen : List Cand),
      (evs.all fun e => !e.isExecution) = true → epvAux seen evs = true := by
  intro evs
  induction evs with
  | nil => intro seen _; rfl
  | cons e rest ih =>
      intro seen h
      rw [List.all_cons] at h
      cases e with
      | validatedEv c b =>
          cases b <;> exact ih _ (Bool.and_eq_true _ _ ▸ h).2
      | repairedEv c m d => exact ih _ (Bool.and_eq_true _ _ ▸ h).2
      | executedEv c r => simp [Event.isExecution] at h

/-- A candidate the loop hands over as validated has passed the syntax check,
so it parses. -/
theorem debugLoop_validated_parse (dbg : Cand → String → DebuggerResult) (q s : String) :
    ∀ (fuel attempt : Nat) (c cv : Cand) (a : Nat),
      (debugLoop dbg q s fuel attempt c).1 = .validated cv a → cv.parse = .ok := by
  intro fuel
  induction fuel with
  | zero => intro attempt c cv a h; simp [debugLoop] at h
  | succ n ih =>
      intro attempt c cv a h
      unfold debugLoop at h
      by_cases hv : (validate_code false (fun _ => .error "not used") q s c).is_valid = true
      · simp only [hv, if_true, reduceIte] at h
        obtain ⟨hc, _⟩ := LoopOut.validated.inj h
        exact hc ▸ (validate_code_no_llm_is_valid _ q s c).mp hv
      · simp only [hv, if_false, Bool.false_eq_true, reduceIte] at h
        set msg := (validate_code false (fun _ => .error "not used") q s c).error_message.getD
          "Validation failed." with hmsg
        cases hs : ((dbg c msg).status == "success") <;>
          cases hc : (dbg c msg).corrected_code <;>
          simp only [hs, hc] at h
        · simp at h
        · simp at h
        · simp at h
        · exact ih _ _ _ _ h

/-- A trace the loop produces when it hands a candidate over as validated,
extended with the execution of that candidate, passes the
validated-before-executed scan: the loop's last event is the passing
validation of exactly that candidate. -/
theorem debugLoop_validated_epv (dbg : Cand → String → DebuggerResult) (q s : String) :
    ∀ (fuel attempt : Nat) (c cv : Cand) (a : Nat) (r : RunResult) (seen : List Cand),
      (debugLoop dbg q s fuel attempt c).1 = .validated cv a →
      epvAux seen ((debugLoop dbg q s fuel attempt c).2 ++ [.executedEv cv r]) = true := by
  intro fuel
  induction fuel with
  | zero => intro attempt c cv a r seen h; simp [debugLoop] at h
  | succ n ih =>
      intro attempt c cv a r seen h
      unfold debugLoop at h ⊢
      by_cases hv : (validate_code false (fun _ => .error "not used") q s c).is_valid = true
      · simp only [hv, if_true, reduceIte] at h ⊢
        obtain ⟨hc, _⟩ := LoopOut.validated.inj h
        subst hc
        simp [epvAux, candMem]
      · simp only [hv, if_false, Bool.false_eq_true, reduceIte] at h ⊢
        set msg := (validate_code false (fun _ => .error "not used") q s c).error_message.getD
          "Validation failed." with hmsg
        cases hs : ((dbg c msg).status == "success") <;>
          cases hc : (dbg c msg).corrected_code <;>
          simp only [hs, hc] at h ⊢
        · simp at h
        · simp at h
        · simp at h
        · rename_i c2
          simp only [epvAux, List.cons_append]
          exact ih _ _ _ _ r seen h

/-- The execute-and-respond step records exactly one executor invocation, of
the code it was handed. -/
theorem executeAndRespond_trace (respond : String → ExecDict → String)
    (q jb ae ml : String) (c : Cand) :
    (executeAndRespond respond q jb ae ml c).2 =
      [.executedEv c (run_generated_code c jb ae ml)] := by
  cases hr : run_generated_code c jb ae ml <;>
    simp [executeAndRespond, hr]

/-- An execution-free trace has execution count zero. -/
theorem executionCount_of_no_execution (evs : List Event)
    (h : (evs.all fun e => !e.isExecution) = true) : executionCount evs = 0 := by
  simp only [executionCount]
  rw [List.countP_eq_zero]
  intro a ha
  rw [List.all_eq_true] at h
  have h2 := h a ha
  simp only [Bool.not_eq_true'] at h2
  simp [h2]

/-- Appending one executor invocation leaves the repair count unchanged. -/
theorem repairCount_append_exec (evs : List Event) (c : Cand) (r : RunResult) :
    repairCount (evs ++ [.executedEv c r]) = repairCount evs := by
  simp [repairCount, List.countP_append, Event.isRepair]

/-- Appending one executor invocation raises the execution count by one. -/
theorem executionCount_append_exec (evs : List Event) (c : Cand) (r : RunResult) :
    executionCount (evs ++ [.executedEv c r]) = executionCount evs + 1 := by
  simp [executionCount, List.countP_append, Event.isExecution, List.countP_cons]

/-- No executor invocation belongs to an execution-free trace. -/
theorem not_exec_mem_of_no_execution (evs : List Event) (c : Cand) (r : RunResult)
    (h : (evs.all fun e => !e.isExecution) = true) : Event.executedEv c r ∉ evs := by
  intro hmem
  rw [List.all_eq_true] at h
  have h2 := h _ hmem
  simp [Event.isExecution] at h2

/-! ## Claims about the repair loop (C1, C2) -/

/-- C1, amended.  In `run_json_query_pipeline` repair is driven solely by
validation failures: the executor is invoked at most once, after the loop has
finished, and no repair-collaborator invocation ever follows an executor
invocation — whatever the execution outcome and however much repair budget
remains.  There is no `Executing → Repairing` transition. -/
theorem C1_repair_never_follows_execution (b : BuilderResult)
    (dbg : Cand → String → DebuggerResult) (respond : String → ExecDict → String)
    (rd : Bool) (rounds : Nat) (q s jb ae ml : String) :
    noRepairAfterExecution (run_json_query_pipeline b dbg respond rd rounds q s jb ae ml).2 = true ∧
    executionCount (run_json_query_pipeline b dbg respond rd rounds q s jb ae ml).2 ≤ 1 := by
  obtain ⟨st, pc, em⟩ := b
  cases pc with
  | none => simp [run_json_query_pipeline, noRepairAfterExecution, executionCount]
  | some c0 =>
      cases hst : (st == "success") with
      | false => simp [run_json_query_pipeline, hst, noRepairAfterExecution, executionCount]
      | true =>
          cases rd with
          | false =>
              simp only [run_json_query_pipeline, hst, Bool.false_eq_true, if_false,
                reduceIte, executeAndRespond_trace]
              constructor
              · rfl
              · simp [executionCount, Event.isExecution]
          | true =>
              have hne := debugLoop_no_execution dbg q s rounds 0 c0
              cases hL : (debugLoop dbg q s rounds 0 c0).1 with
              | validated cv a =>
                  simp only [run_json_query_pipeline, hst, if_true, reduceIte, hL,
                    executeAndRespond_trace]
                  constructor
                  · exact noRepairAfterExecution_append_exec _ _ _ hne
                  · rw [executionCount_append_exec, executionCount_of_no_execution _ hne]
              | debugFailed cf ef af =>
                  simp only [run_json_query_pipeline, hst, if_true, reduceIte, hL]
                  exact ⟨noRepairAfterExecution_of_no_execution _ hne,
                    by rw [executionCount_of_no_execution _ hne]; omega⟩
              | exhausted cx ax =>
                  simp only [run_json_query_pipeline, hst, if_true, reduceIte, hL]
                  exact ⟨noRepairAfterExecution_of_no_execution _ hne,
                    by rw [executionCount_of_no_execution _ hne]; omega⟩

/-- C2, amended.  The pipeline never performs more than `debugging_rounds`
repair invocations; but at the boundary `debugging_rounds = 0` with the
debugger stage enabled it performs no collaborator invocation at all — no
validation and no execution (the loop body never runs, `validation_passed`
stays false, and the pipeline returns the validation-failure response) —
rather than the one validate-and-execute attempt the claim states. -/
theorem C2_repair_invocations_bounded (b : BuilderResult)
    (dbg : Cand → String → DebuggerResult) (respond : String → ExecDict → String)
    (rd : Bool) (rounds : Nat) (q s jb ae ml : String) :
    repairCount (run_json_query_pipeline b dbg respond rd rounds q s jb ae ml).2 ≤ rounds ∧
    (rd = true → rounds = 0 →
      (run_json_query_pipeline b dbg respond rd rounds q s jb ae ml).2 = []) := by
  obtain ⟨st, pc, em⟩ := b
  cases pc with
  | none => simp [run_json_query_pipeline, repairCount]
  | some c0 =>
      cases hst : (st == "success") with
      | false => simp [run_json_query_pipeline, hst, repairCount]
      | true =>
          cases rd with
          | false =>
              constructor
              · simp only [run_json_query_pipeline, hst, Bool.false_eq_true, if_false,
                  reduceIte, executeAndRespond_trace]
                simp [repairCount, Event.isRepair]
              · intro h; cases h
          | true =>
              constructor
              · have hrc := debugLoop_repairCount dbg q s rounds 0 c0
                cases hL : (debugLoop dbg q s rounds 0 c0).1 with
                | validated cv a =>
                    simp only [run_json_query_pipeline, hst, if_true, reduceIte, hL,
                      executeAndRespond_trace]
                    rw [repairCount_append_exec]
                    exact hrc
                | debugFailed cf ef af =>
                    simp only [run_json_query_pipeline, hst, if_true, reduceIte, hL]
                    exact hrc
                | exhausted cx ax =>
                    simp only [run_json_query_pipeline, hst, if_true, reduceIte, hL]
                    exact hrc
              · intro _ h0
                subst h0
                simp [run_json_query_pipeline, hst, debugLoop]

/-! ## Ordering of validation and execution (C6) -/

/-- C6, amended.  With the validation/debugging stage enabled
(`run_debugger = true`), every candidate the pipeline executes has itself
passed validation earlier in the run — in particular a repaired candidate is
re-validated before it is executed.  (With `run_debugger = false` the claim
fails: the generated code is executed with no validation at all, see the
counterexample.) -/
theorem C6_executed_candidates_validated (b : BuilderResult)
    (dbg : Cand → String → DebuggerResult) (respond : String → ExecDict → String)
    (rounds : Nat) (q s jb ae ml : String) :
    executionPrecededByValidation
      (run_json_query_pipeline b dbg respond true rounds q s jb ae ml).2 = true := by
  obtain ⟨st, pc, em⟩ := b
  cases pc with
  | none => simp [run_json_query_pipeline, executionPrecededByValidation, epvAux]
  | some c0 =>
      cases hst : (st == "success") with
      | false => simp [run_json_query_pipeline, hst, executionPrecededByValidation, epvAux]
      | true =>
          have hne := debugLoop_no_execution dbg q s rounds 0 c0
          cases hL : (debugLoop dbg q s rounds 0 c0).1 with
          | validated cv a =>
              simp only [run_json_query_pipeline, hst, if_true, reduceIte, hL,
                executeAndRespond_trace]
              exact debugLoop_validated_epv dbg q s rounds 0 c0 cv a _ [] hL
          | debugFailed cf ef af =>
              simp only [run_json_query_pipeline, hst, if_true, reduceIte, hL]
              exact epvAux_of_no_execution _ _ hne
          | exhausted cx ax =>
              simp only [run_json_query_pipeline, hst, if_true, reduceIte, hL]
              exact epvAux_of_no_execution _ _ hne

/-- C1 counterexample: a concrete run with repair budget 2, a willing repair
collaborator, and a validated candidate whose execution fails
(missing entry point, `success = False`): the pipeline invokes the repair
collaborator zero times and terminates on this first runtime failure,
refuting the claimed `Executing → Repairing` transition. -/
theorem C1_counterexample :
    repairCount (run_json_query_pipeline (builderOk candNoEntry)
        (debuggerAlwaysFixes candNoEntry) respondStub true 2 "q" "schema"
        "/data/json_data" "/data/all_email_corpus.csv"
        "/data/master_patient_json_links.csv").2 = 0 ∧
    failedExecutionCount (run_json_query_pipeline (builderOk candNoEntry)
        (debuggerAlwaysFixes candNoEntry) respondStub true 2 "q" "schema"
        "/data/json_data" "/data/all_email_corpus.csv"
        "/data/master_patient_json_links.csv").2 = 1 := ⟨rfl, rfl⟩

/-- C2 counterexample: with the debugger stage enabled and
`debugging_rounds = 0`, the pipeline performs zero validator invocations and
zero executor invocations — not the one validate-and-execute attempt the
claim states for the `maxRounds = 0` boundary. -/
theorem C2_counterexample :
    validationCount (run_json_query_pipeline (builderOk candNoEntry)
        (debuggerAlwaysFixes candNoEntry) respondStub true 0 "q" "schema"
        "/data/json_data" "/data/all_email_corpus.csv"
        "/data/master_patient_json_links.csv").2 = 0 ∧
    executionCount (run_json_query_pipeline (builderOk candNoEntry)
        (debuggerAlwaysFixes candNoEntry) respondStub true 0 "q" "schema"
        "/data/json_data" "/data/all_email_corpus.csv"
        "/data/master_patient_json_links.csv").2 = 0 := ⟨rfl, rfl⟩

/-- C2 witness: the amended bound instantiated at a concrete run with
`run_debugger = true` and `debugging_rounds = 0`, the hypotheses discharged
by `rfl`. -/
theorem C2_repair_invocations_bounded_witness :
    repairCount (run_json_query_pipeline (builderOk candNoEntry)
        (debuggerAlwaysFixes candNoEntry) respondStub true 0 "q" "schema"
        "/a" "/b" "/c").2 ≤ 0 ∧
    (run_json_query_pipeline (builderOk candNoEntry) (debuggerAlwaysFixes candNoEntry)
        respondStub true 0 "q" "schema" "/a" "/b" "/c").2 = [] :=
  ⟨(C2_repair_invocations_bounded (builderOk candNoEntry) (debuggerAlwaysFixes candNoEntry)
      respondStub true 0 "q" "schema" "/a" "/b" "/c").1,
   (C2_repair_invocations_bounded (builderOk candNoEntry) (debuggerAlwaysFixes candNoEntry)
      respondStub true 0 "q" "schema" "/a" "/b" "/c").2 rfl rfl⟩

/-- C6 counterexample: with `run_debugger = false` the pipeline executes the
generated candidate — here even a syntactically invalid one — with no
validator invocation at all, refuting the claim for that configuration. -/
theorem C6_counterexample :
    executionPrecededByValidation (run_json_query_pipeline (builderOk candSyntaxError)
        (debuggerAlwaysFixes candNoEntry) respondStub false 2 "q" "schema"
        "/data/json_data" "/data/all_email_corpus.csv"
        "/data/master_patient_json_links.csv").2 = false ∧
    executionCount (run_json_query_pipeline (builderOk candSyntaxError)
        (debuggerAlwaysFixes candNoEntry) respondStub false 2 "q" "schema"
        "/data/json_data" "/data/all_email_corpus.csv"
        "/data/master_patient_json_links.csv").2 = 1 := ⟨rfl, rfl⟩

/-! ## Execution bounding (C3) -/

/-- C3, amended.  No time or resource bound exists around the execution call:
`run_generated_code` invokes the candidate's entry point synchronously, so a
candidate whose entry point never returns blocks the caller indefinitely and
no outcome — in particular no Timeout-classified outcome — is ever produced
for it. -/
theorem C3_no_execution_time_bound (cand : Cand) (jb ae ml : String) (sc : LocalScope)
    (h1 : cand.parse = .ok)
    (h2 : execStmts cand.body { entry := none, others := [] } = .ok sc)
    (h3 : sc.entry = some (.callable .diverges)) :
    run_generated_code cand jb ae ml = .blocked := by
  simp [run_generated_code, tryBody, h1, h2, h3]

/-- C3 witness: the amended statement instantiated at the concrete diverging
candidate, the hypotheses discharged by `rfl`. -/
theorem C3_no_execution_time_bound_witness :
    run_generated_code candDiverges "/a" "/b" "/c" = RunResult.blocked :=
  C3_no_execution_time_bound candDiverges "/a" "/b" "/c"
    { entry := some (.callable .diverges), others := [] } rfl rfl rfl

/-- C3 counterexample: a concrete non-terminating candidate blocks the
pipeline — the execution attempt never returns any outcome, so no
`errorKind = Timeout` result is produced, refuting the claimed mandatory
time bound. -/
theorem C3_counterexample :
    run_generated_code candDiverges "/data/json_data" "/data/all_email_corpus.csv"
        "/data/master_patient_json_links.csv" = RunResult.blocked ∧
    RunResult.isReturned (run_generated_code candDiverges "/data/json_data"
        "/data/all_email_corpus.csv" "/data/master_patient_json_links.csv") = false :=
  ⟨rfl, rfl⟩

/-! ## Sandbox capability table (C4) -/

/-- C4, amended.  The capability table passed to `exec` consists of exactly
the builtins dict, the `json` module, the full `pandas` module bound as `pd`,
and the three injected path strings; the builtins expose no `open`,
`__import__`, `eval`, `getattr` or `globals`, and no `os` entry exists.  But
because the full `pandas` module is exposed, every filesystem path is
reachable (via `pd.read_csv` on an arbitrary path string): the reachable
paths are not confined to the injected bindings. -/
theorem C4_sandbox_capability_table (jb ae ml : String) :
    ((restricted_globals jb ae ml).map Prod.fst =
        ["__builtins__", "json", "pd", "MASTER_LINKS_CSV_FILE_PATH",
         "ALL_EMAILS_CSV_FILE_PATH", "JSON_BASE_DIR_PATH"] ∧
      injectedPathBindings (restricted_globals jb ae ml) = [ml, ae, jb] ∧
      "open" ∉ sandboxBuiltinNames ∧ "__import__" ∉ sandboxBuiltinNames ∧
      "eval" ∉ sandboxBuiltinNames ∧ "getattr" ∉ sandboxBuiltinNames ∧
      "globals" ∉ sandboxBuiltinNames) ∧
    ∀ p : String, canReachPath (restricted_globals jb ae ml) p = true := by
  refine ⟨⟨rfl, rfl, by decide, by decide, by decide, by decide, by decide⟩, ?_⟩
  intro p
  simp [canReachPath, restricted_globals, SandboxEntry.opensPath]

/-- C4 counterexample: `/etc/passwd` is reachable from the concrete
capability table although it is not one of the three injected bindings,
refuting the claimed path confinement. -/
theorem C4_counterexample :
    canReachPath (restricted_globals "/data/json_data" "/data/all_email_corpus.csv"
        "/data/master_patient_json_links.csv") "/etc/passwd" = true ∧
    "/etc/passwd" ∉ injectedPathBindings (restricted_globals "/data/json_data"
        "/data/all_email_corpus.csv" "/data/master_patient_json_links.csv") := by
  decide

/-! ## Totality of the failure classifier (C5) -/

/-- C5.  The claim is right and the code is wrong: the module imports
`pandas`, not `pd`, so when an exception of none of the first three handled
classes reaches the clause `except pd.errors.EmptyDataError`, evaluating that
class expression raises `NameError: name pd is not defined` and
`run_generated_code` itself raises instead of returning the documented
generic `UnexpectedError` dict.  Evaluated here at a candidate whose entry
point raises `ValueError`. -/
theorem C5_classifier_raises_nameerror (jb ae ml : String) :
    run_generated_code candRaisesValueError jb ae ml =
      .raised (.nameError "pd") := rfl

/-! ## Syntax validation (C7) -/

/-- C7.  For every syntactically invalid candidate, `validate_code` returns
`is_valid = false` with `error_type = "syntax_error"` and a message carrying
the line and column of the error, and the supplementary LLM check is skipped
(the verdict is the same for every LLM oracle and flag, and records that the
check was not performed); and in the pipeline — with the validation stage on,
the only configuration in which the validator runs — every candidate that
reaches the executor parses, so the executor is never invoked on a
syntactically invalid candidate. -/
theorem C7_syntax_invalid_rejected_never_executed :
    (∀ (c : Cand) (m : String) (li off : Option Nat) (use_llm : Bool)
        (llm : String → Except String String) (q s : String),
        c.parse = .syntaxErr m li off →
        validate_code use_llm llm q s c =
          { is_valid := false, error_type := some "syntax_error",
            error_message := some (syntaxErrorMessage m li off),
            details := some (PyExc.str (.syntaxError m li off)),
            llm_check := "Not performed due to syntax error." }) ∧
    (∀ (b : BuilderResult) (dbg : Cand → String → DebuggerResult)
        (respond : String → ExecDict → String) (rounds : Nat)
        (q s jb ae ml : String) (c : Cand) (r : RunResult),
        Event.executedEv c r ∈
          (run_json_query_pipeline b dbg respond true rounds q s jb ae ml).2 →
        c.parse = .ok) := by
  constructor
  · intro c m li off u llm q s h
    simp [validate_code, validate_python_syntax, h]
  · intro b dbg respond rounds q s jb ae ml c r hmem
    obtain ⟨st, pc, em⟩ := b
    cases pc with
    | none => simp [run_json_query_pipeline] at hmem
    | some c0 =>
        cases hst : (st == "success") with
        | false => simp [run_json_query_pipeline, hst] at hmem
        | true =>
            have hne := debugLoop_no_execution dbg q s rounds 0 c0
            cases hL : (debugLoop dbg q s rounds 0 c0).1 with
            | validated cv a =>
                simp only [run_json_query_pipeline, hst, if_true, reduceIte, hL,
                  executeAndRespond_trace] at hmem
                rcases List.mem_append.mp hmem with hin | hin
                · exact absurd hin (not_exec_mem_of_no_execution _ _ _ hne)
                · rw [List.mem_singleton] at hin
                  obtain ⟨hc, -⟩ := Event.executedEv.inj hin
                  rw [hc]
                  exact debugLoop_validated_parse dbg q s rounds 0 c0 cv a hL
            | debugFailed cf ef af =>
                simp only [run_json_query_pipeline, hst, if_true, reduceIte, hL] at hmem
                exact absurd hmem (not_exec_mem_of_no_execution _ _ _ hne)
            | exhausted cx ax =>
                simp only [run_json_query_pipeline, hst, if_true, reduceIte, hL] at hmem
                exact absurd hmem (not_exec_mem_of_no_execution _ _ _ hne)

/-- C7 witness: the verdict part instantiated at the concrete syntactically
invalid candidate, and the never-executed part instantiated at a concrete
pipeline run whose single executed candidate indeed parses. -/
theorem C7_syntax_invalid_rejected_never_executed_witness :
    validate_code false llmEcho "q" "schema" candSyntaxError =
      { is_valid := false, error_type := some "syntax_error",
        error_message := some (syntaxErrorMessage "invalid syntax" (some 1) (some 30)),
        details := some (PyExc.str (.syntaxError "invalid syntax" (some 1) (some 30))),
        llm_check := "Not performed due to syntax error." } ∧
    candNoEntry.parse = .ok :=
  ⟨C7_syntax_invalid_rejected_never_executed.1 candSyntaxError "invalid syntax"
      (some 1) (some 30) false llmEcho "q" "schema" rfl,
   C7_syntax_invalid_rejected_never_executed.2 (builderOk candNoEntry)
      (debuggerAlwaysFixes candNoEntry) respondStub 2 "q" "schema" "/a" "/b" "/c"
      candNoEntry (run_generated_code candNoEntry "/a" "/b" "/c") (by decide)⟩

/-! ## Missing entry point (C8) -/

/-- C8, amended.  For every syntactically valid candidate whose module body
executes to completion without raising and leaves no callable
`query_data_for_question` binding, `run_generated_code` returns the
`success = False` missing-entry-point dict without raising.  (When the module
body itself raises, the claim fails: the exception goes to the broken
classifier instead — see the counterexample.) -/
theorem C8_missing_entry_point_dict (cand : Cand) (jb ae ml : String) (sc : LocalScope)
    (h1 : cand.parse = .ok)
    (h2 : execStmts cand.body { entry := none, others := [] } = .ok sc)
    (h3 : sc.entryCallable = false) :
    run_generated_code cand jb ae ml = .returned missingEntryDict := by
  cases hsc : sc.entry with
  | none => simp [run_generated_code, tryBody, h1, h2, hsc]
  | some eb =>
      cases eb with
      | nonCallable => simp [run_generated_code, tryBody, h1, h2, hsc]
      | callable call => simp [LocalScope.entryCallable, hsc] at h3

/-- C8 witness: the amended statement instantiated at the concrete
entry-point-free candidate, the hypotheses discharged by `rfl`. -/
theorem C8_missing_entry_point_dict_witness :
    run_generated_code candNoEntry "/a" "/b" "/c" = RunResult.returned missingEntryDict :=
  C8_missing_entry_point_dict candNoEntry "/a" "/b" "/c"
    { entry := none, others := ["x"] } rfl rfl rfl

/-- C8 counterexample: a syntactically valid candidate with no entry point
whose module body raises `ValueError` makes `run_generated_code` raise an
unhandled `NameError` — neither the missing-entry-point result nor any
returned result at all, refuting the claim as stated for this candidate. -/
theorem C8_counterexample :
    run_generated_code candBodyRaises "/data/json_data" "/data/all_email_corpus.csv"
        "/data/master_patient_json_links.csv" = .raised (.nameError "pd") ∧
    RunResult.isReturned (run_generated_code candBodyRaises "/data/json_data"
        "/data/all_email_corpus.csv" "/data/master_patient_json_links.csv") = false :=
  ⟨rfl, rfl⟩

/-! ## Fault traces and user-facing text (C9) -/

/-- C9, amended.  The non-forwarding of the raw `details` field holds only
for the text the agent builds itself: when the LLM call raises, the fallback
user-facing text is a fixed template around the `error` field alone (so it is
independent of the `details` field for every failed execution result).  When
the LLM call succeeds, the `details` field — whenever non-empty and under 500
characters — is interpolated verbatim into the prompt and the user-facing
text is whatever the LLM returns, so non-forwarding is not enforced by the
code (see the counterexample). -/
theorem C9_fallback_built_from_error_only (emsg q : String) (res : ExecDict)
    (h : res.success = false) :
    response_agent_run (fun _ => .error emsg) q res =
      "I\x27m sorry, I encountered an error processing your request: " ++
        res.error.getD "An unspecified error occurred during query execution." ++
        ". Please try again later or contact support if the issue persists." := by
  simp [response_agent_run, h]

/-- C9 witness: the fallback statement instantiated at a concrete failed
result carrying an internal trace in `details`, the hypothesis discharged by
`rfl`. -/
theorem C9_fallback_built_from_error_only_witness :
    response_agent_run (fun _ => .error "llm down") "q" c9Res =
      "I\x27m sorry, I encountered an error processing your request: " ++
        c9Res.error.getD "An unspecified error occurred during query execution." ++
        ". Please try again later or contact support if the issue persists." :=
  C9_fallback_built_from_error_only "llm down" "q" c9Res rfl

/-- C9 counterexample: under an LLM that echoes its prompt, the user-facing
response contains the raw internal trace from the `details` field verbatim —
the agent interpolates the detail into the prompt it sends, so the code does
not enforce the claimed non-forwarding. -/
theorem C9_counterexample :
    response_agent_run llmEcho "q" c9Res =
      c9Before ++ "SECRET_INTERNAL_TRACE" ++ c9After := by
  rfl

/-! ## Imports inside the sandbox (C10) -/

/-- C10, amended.  A candidate whose module body begins with an import
statement does fail inside the sandbox — the `__builtins__` table injected
into `exec` contains no `__import__`, so the statement raises `ImportError` —
but `run_generated_code` does not return a `success = False` result for it:
the `ImportError` matches none of the first three `except` clauses, and
evaluating `pd.errors.EmptyDataError` raises `NameError` (the module binds
`pandas`, not `pd`), which escapes unhandled. -/
theorem C10_import_raises_unhandled (m a text jb ae ml : String) (rest : List Stmt) :
    run_generated_code { text := text, parse := .ok, body := .stImport m a :: rest }
      jb ae ml = .raised (.nameError "pd") := rfl

/-- C10 counterexample: the prompt-shaped candidate beginning with
`import pandas as pd` does not yield any `success = False` result —
`run_generated_code` raises an unhandled `NameError` instead, refuting the
claimed returned failure. -/
theorem C10_counterexample :
    RunResult.returnsFailure (run_generated_code candImportPrompt "/data/json_data"
        "/data/all_email_corpus.csv" "/data/master_patient_json_links.csv") = false ∧
    run_generated_code candImportPrompt "/data/json_data" "/data/all_email_corpus.csv"
        "/data/master_patient_json_links.csv" = .raised (.nameError "pd") :=
  ⟨rfl, rfl⟩
